import Mathlib

/-!
Verification development for `src/app.py` (NAU Tour Diary Generator, a
single-file Streamlit app).  Python dictionaries holding extracted record
fields are modelled as structures of `Option String` fields: `none` models a
key absent from the dict, `some s` the stored value after Python `str()`
conversion.  `user_info['basic_pay']` is the one field the code can store as
the Python value `None` (line 297 stores `data.get('basic_pay')` verbatim), so
it is modelled as `Option (Option String)`: the outer layer is key presence,
the inner layer distinguishes a real string from Python `None`.
-/

/-- One trip record, an element of the `trips` list extracted from a tour
approval (prompt lines 70-78), plus the `system_no` key the main loop adds
(lines 311, 314). -/
structure Trip where
  departure_place : Option String
  departure_date  : Option String
  departure_time  : Option String
  arrival_place   : Option String
  arrival_date    : Option String
  arrival_time    : Option String
  mode_of_journey : Option String
  distance_km     : Option String
  purpose         : Option String
  system_no       : Option String
  deriving Repr, DecidableEq

/-- The `user_details` sub-dict of a tour-approval extraction (line 69). -/
structure UserDetails where
  name        : Option String
  designation : Option String
  budget_head : Option String
  deriving Repr, DecidableEq

/-- The shape of `data.get('trips', [])` at lines 308-315: a JSON list of
trips, a single dict (`isinstance(trips, dict)`), an absent key (the `[]`
default), or a value of any other type (both `isinstance` checks fail). -/
inductive TripsField where
  | list (ts : List Trip)
  | single (t : Trip)
  | absent
  | other
  deriving Repr, DecidableEq

/-- The parsed JSON dict returned by a successful extraction, restricted to
the keys the program reads: `type`, `basic_pay` (salary slips), `user_details`,
`system_no` and `trips` (tour approvals), `distance_km` (map screenshots). -/
structure RawDoc where
  dtype        : Option String
  basic_pay    : Option String
  user_details : Option UserDetails
  system_no    : Option String
  trips        : TripsField
  distance_km  : Option String
  deriving Repr, DecidableEq

/-- Outcome of the external call sequence inside the `try` block of
`extract_doc_data` (lines 58-97): the upload or model call raises (network or
service error), `json.loads` raises on a malformed response, any other
exception (e.g. a missing key) is raised, or a JSON dict is returned. -/
inductive ServiceOutcome where
  | networkError
  | malformedJSON
  | missingKey
  | ok (d : RawDoc)
  deriving Repr, DecidableEq

/-- Whether the outcome is one of the failure causes. -/
def ServiceOutcome.isFailure : ServiceOutcome → Bool
  | .ok _ => false
  | _     => true

/-- `extract_doc_data` (lines 48-103): on success the parsed dict is returned;
the `except Exception` arm at lines 99-101 catches every failure cause alike,
logs an error with `st.error`, and returns `None`. -/
def extract_doc_data : ServiceOutcome → Option RawDoc
  | .ok d => some d
  | _     => none

/-- The temporary files present while the external model call runs: the
`tempfile.NamedTemporaryFile(delete=False)` block at lines 54-56 creates the
file at path `p` before the `try` block begins, so the call at line 59 sees
`p` in the filesystem `fs`. -/
def fsDuringCall (p : String) (fs : List String) : List String := p :: fs

/-- `extract_doc_data` with its temporary-file side effect made explicit as
state passing over the list of existing temp-file paths: the file `p` is
created before the call and the `finally` arm at lines 102-103 runs
`os.remove(tmp_path)` on the success path and on every failure path. -/
def extract_doc_data_fs (o : ServiceOutcome) (p : String) (fs : List String) :
    Option RawDoc × List String :=
  (extract_doc_data o, (fsDuringCall p fs).erase p)

/-- Python truthiness of a string-or-absent dict value (`if u.get('name'):`):
true exactly for a present, non-empty string. -/
def truthy : Option String → Bool
  | some s => !(s = "")
  | none   => false

/-- The accumulator dicts and list of the main loop (lines 287-289). -/
structure UserInfo where
  name        : Option String
  designation : Option String
  budget_head : Option String
  basic_pay   : Option (Option String)
  deriving Repr, DecidableEq

structure AppState where
  tour_entries : List Trip
  map_entries  : List RawDoc
  user_info    : UserInfo
  deriving Repr, DecidableEq

def initState : AppState := ⟨[], [], ⟨none, none, none, none⟩⟩

/-- Lines 301-305: each truthy field of `user_details` overwrites the
corresponding `user_info` entry (the code tests `u.get(...)`, not whether
`user_info` already holds a value). -/
def applyUserDetails (info : UserInfo) (u : UserDetails) : UserInfo :=
  let i1 := if truthy u.name then { info with name := u.name } else info
  let i2 := if truthy u.designation then { i1 with designation := u.designation } else i1
  if truthy u.budget_head then { i2 with budget_head := u.budget_head } else i2

/-- Lines 311 and 314: `t['system_no'] = data.get('system_no', 'Unknown')`. -/
def tagTrip (d : RawDoc) (t : Trip) : Trip :=
  { t with system_no := some (d.system_no.getD "Unknown") }

/-- One iteration of the extraction loop (lines 292-318): a `None` extraction
result is skipped (`if data:`), otherwise the record is dispatched on its
`type` tag. -/
def processFile (st : AppState) (data : Option RawDoc) : AppState :=
  match data with
  | none => st
  | some d =>
    if d.dtype = some "salary" then
      { st with user_info := { st.user_info with basic_pay := some d.basic_pay } }
    else if d.dtype = some "tour_approval" then
      let info := match d.user_details with
        | some u => applyUserDetails st.user_info u
        | none => st.user_info
      let entries := match d.trips with
        | .list ts  => st.tour_entries ++ ts.map (tagTrip d)
        | .single t => st.tour_entries ++ [tagTrip d t]
        | .absent   => st.tour_entries
        | .other    => st.tour_entries
      { st with user_info := info, tour_entries := entries }
    else if d.dtype = some "map_data" then
      { st with map_entries := st.map_entries ++ [d] }
    else st

/-- The extraction loop over all uploaded files, each file already reduced to
its `extract_doc_data` result. -/
def processFiles (files : List (Option RawDoc)) (st : AppState) : AppState :=
  files.foldl processFile st

/-- Python `str.strip()` default whitespace characters (ASCII range). -/
def isSpaceChar (c : Char) : Bool :=
  c = ' ' || c = '\t' || c = '\n' || c = '\r' || c = '\x0b' || c = '\x0c'

/-- Python `s.strip()`: drop whitespace from both ends. -/
def pyStrip (s : String) : String :=
  ⟨((s.data.dropWhile isSpaceChar).reverse.dropWhile isSpaceChar).reverse⟩

/-- The blank-distance test of the merge loop (lines 326-327):
`str(tour.get('distance_km', '0')).strip() in ['0', '', 'None']`. -/
def blankDist (t : Trip) : Bool :=
  let s := pyStrip (t.distance_km.getD "0")
  s = "0" || s = "" || s = "None"

/-- The body of the merge loop for one trip (lines 324-333): when the distance
is blank and at least one map entry exists, the trip's `distance_km` is set to
`map_entries[0].get('distance_km', '0')`; otherwise the trip is untouched. -/
def mergeOne (maps : List RawDoc) (t : Trip) : Trip :=
  match maps with
  | [] => t
  | m :: _ =>
    if blankDist t then { t with distance_km := some (m.distance_km.getD "0") } else t

/-- The whole merge loop: each accumulated trip is processed once. -/
def mergeTrips (maps : List RawDoc) (ts : List Trip) : List Trip :=
  ts.map (mergeOne maps)

/-- Split a character list at every slash, keeping empty groups, mirroring the
decomposition the `strptime` regex performs around the literal `/` of the
format `"%d/%m/%Y"`. -/
def splitSlash : List Char → List (List Char)
  | [] => [[]]
  | c :: cs =>
    if c = '/' then [] :: splitSlash cs
    else
      match splitSlash cs with
      | g :: gs => (c :: g) :: gs
      | []      => [[c]]

/-- Read a non-empty all-digit character group as a number. -/
def digitsToNat (cs : List Char) : Option Nat :=
  if cs.isEmpty then none
  else if cs.all Char.isDigit then
    some (cs.foldl (fun n c => n * 10 + (c.toNat - 48)) 0)
  else none

def isLeap (y : Nat) : Bool := y % 4 = 0 && (y % 100 ≠ 0 || y % 400 = 0)

def daysInMonth (y m : Nat) : Nat :=
  if m = 2 then (if isLeap y then 29 else 28)
  else if m = 4 || m = 6 || m = 9 || m = 11 then 30
  else 31

/-- `datetime.strptime(s, "%d/%m/%Y")`, returning `(year, month, day)`:
CPython matches the day against 1-2 digits valued 1-31, the month against
1-2 digits valued 1-12, the year against exactly 4 digits, with the whole
string consumed; the `datetime` constructor then rejects year 0 and a day
beyond the month's length.  Any failure raises `ValueError`, modelled as
`none`. -/
def parseDateDMY (s : String) : Option (Nat × Nat × Nat) :=
  match splitSlash s.data with
  | [ds, ms, ys] =>
    if 1 ≤ ds.length ∧ ds.length ≤ 2 ∧ 1 ≤ ms.length ∧ ms.length ≤ 2 ∧ ys.length = 4 then
      match digitsToNat ds, digitsToNat ms, digitsToNat ys with
      | some d, some m, some y =>
        if 1 ≤ d ∧ 1 ≤ m ∧ m ≤ 12 ∧ 1 ≤ y ∧ d ≤ 31 ∧ d ≤ daysInMonth y m then
          some (y, m, d)
        else none
      | _, _, _ => none
    else none
  | _ => none

/-- Order-preserving encoding of a date: valid dates have `m ≤ 12 < 100` and
`d ≤ 31 < 100`, so the encoding compares like the `datetime` triple. -/
def dateEnc (ymd : Nat × Nat × Nat) : Nat :=
  ymd.1 * 10000 + ymd.2.1 * 100 + ymd.2.2

/-- `x.get('departure_date')` filtered by Python truthiness, as used both by
the sort key (line 339) and the month-range comprehension (line 126). -/
def truthyDate (t : Trip) : Option String :=
  match t.departure_date with
  | some s => if s = "" then none else some s
  | none   => none

/-- The sort key of line 339: the parsed departure date, or `datetime.min`
(year 1, January 1) when the trip has no truthy departure date.  The `0` arm
is never reached by the sort, which runs only when every key parses. -/
def sortKey (t : Trip) : Nat :=
  match truthyDate t with
  | none   => dateEnc (1, 1, 1)
  | some s =>
    match parseDateDMY s with
    | some ymd => dateEnc ymd
    | none     => 0

/-- Whether computing the sort key of this trip succeeds (no `ValueError`). -/
def keyOk (t : Trip) : Bool :=
  match truthyDate t with
  | none   => true
  | some s => (parseDateDMY s).isSome

def trip_le (a b : Trip) : Bool := sortKey a ≤ sortKey b

/-- Lines 337-341: `tour_entries.sort(key=...)` inside `try/except: pass`.
CPython's `list.sort` computes every key before it reorders anything, so a
`ValueError` from `strptime` leaves the list exactly as it was; when every
key computation succeeds the sort is a stable ascending sort by key. -/
def sortTours (ts : List Trip) : List Trip :=
  if ts.all keyOk then ts.mergeSort trip_le else ts

/-- English month names, as produced by `strftime('%B')` in a C locale. -/
def monthName : Nat → String
  | 1 => "January" | 2 => "February" | 3 => "March"     | 4 => "April"
  | 5 => "May"     | 6 => "June"     | 7 => "July"      | 8 => "August"
  | 9 => "September" | 10 => "October" | 11 => "November" | 12 => "December"
  | _ => ""

/-- `strftime('%B-%Y')` applied to an encoded date. -/
def fmtEnc (e : Nat) : String :=
  monthName (e / 100 % 100) ++ "-" ++ toString (e / 10000)

/-- The encoded parsed departure dates of the trips with a truthy
`departure_date`, in list order. -/
def encDates (trips : List Trip) : List Nat :=
  (trips.filterMap truthyDate).filterMap (fun s => (parseDateDMY s).map dateEnc)

/-- The month line of the header (lines 126-139): empty when no trip has a
truthy departure date; empty when any date fails to parse (the `try` around
the whole computation swallows the `ValueError` with `month_str` still `""`);
otherwise `Month: <B-Y of min>` when the minimum and maximum dates share
month and year, and `Month: <min> to <max>` otherwise. -/
def monthStr (trips : List Trip) : String :=
  let dates := trips.filterMap truthyDate
  if dates.isEmpty then ""
  else if dates.all (fun s => (parseDateDMY s).isSome) then
    match encDates trips with
    | [] => ""
    | e :: es =>
      let lo := es.foldl Nat.min e
      let hi := es.foldl Nat.max e
      if lo / 100 = hi / 100 then "Month: " ++ fmtEnc lo
      else "Month: " ++ fmtEnc lo ++ " to " ++ fmtEnc hi
  else ""

/-- Header fields with the renderer's hardcoded defaults (lines 141-148). -/
def designationStr (u : UserInfo) : String := u.designation.getD "Associate Professor"

def nameStr (u : UserInfo) : String := u.name.getD "Vaibhav Kumar Kanubhai Chaudhari"

/-- Line 144: `user_details.get('basic_pay', 'N/A')` then f-string `str()`.
The `N/A` default fires only when the key is absent; a key stored with the
Python value `None` formats as the string `None`. -/
def basicSalaryStr (u : UserInfo) : String :=
  match u.basic_pay with
  | none          => "N/A"
  | some none     => "None"
  | some (some s) => s

def budgetHeadStr (u : UserInfo) : String := u.budget_head.getD "303/2092"

/-- The header paragraph text of lines 141-148. -/
def headerText (trips : List Trip) (u : UserInfo) : String :=
  "Designation: " ++ designationStr u ++ "\n" ++
  "Name: " ++ nameStr u ++ "\n" ++
  "Basic salary: " ++ basicSalaryStr u ++ "\n" ++
  "B.H: " ++ budgetHeadStr u ++ "\n" ++
  "Dept. of Entomology, N. M. Collage of Agriculture, NAU, Navsari - 396 450\n" ++
  monthStr trips

/-- Line 217: `trip.get('system_no', '')`. -/
def sysNoStr (t : Trip) : String := t.system_no.getD ""

/-- The purpose cell text of lines 219-223. -/
def purposeText (t : Trip) : String :=
  "Tour is final Approved by the Principal, NMCA, NAU.\n" ++
  t.purpose.getD "" ++ "\n" ++
  "in Online Tour management System No.\n" ++ sysNoStr t

/-- The nine cell texts of one data row (lines 192-224), with the renderer's
per-field defaults. -/
def renderRow (t : Trip) : List String :=
  [t.departure_place.getD "NAU, Navsari",
   t.departure_date.getD "",
   t.departure_time.getD "",
   t.arrival_place.getD "",
   t.arrival_date.getD "",
   t.arrival_time.getD "",
   t.mode_of_journey.getD "Private Vehicle",
   t.distance_km.getD "",
   purposeText t]

/-- The signature block text of line 249. -/
def signatureText (u : UserInfo) : String :=
  "(" ++ nameStr u ++ ")\n" ++ designationStr u ++
  "\nDept. of Entomology\nN.M. College of Agriculture\nNAU, Navsari"

/-- The textual content `generate_word_doc` (lines 105-272) places in the
document: the header paragraph, one row of cells per trip, and the user
signature block.  The function is total: no input record is rejected. -/
structure RenderedDoc where
  header : String
  rows : List (List String)
  signBlock : String
  deriving Repr, DecidableEq

def generate_word_doc (tour_data : List Trip) (user_details : UserInfo) : RenderedDoc :=
  { header := headerText tour_data user_details,
    rows := tour_data.map renderRow,
    signBlock := signatureText user_details }

/-- The outcome of one run (lines 343-357): a generated document offered for
download, or the `No tour data found` warning. -/
inductive RunOutput where
  | document (d : RenderedDoc)
  | warning
  deriving Repr, DecidableEq

/-- One full run of the main app logic over the per-file extraction results:
accumulate (lines 292-318), merge (324-333), sort (337-341), then either
render or warn (343-357). -/
def runApp (files : List (Option RawDoc)) : RunOutput :=
  let st := processFiles files initState
  let merged := mergeTrips st.map_entries st.tour_entries
  let sorted := sortTours merged
  if sorted.isEmpty then .warning
  else .document (generate_word_doc sorted st.user_info)

/-- Modelled from the spec: the two-tier distance lookup of spec sections 4.2
and 8 ("query an external mapping service for a rail route first and a road
route second, returning whichever succeeds first") is not present in
src/app.py; only its contract is in the spec.  One lookup either raises,
finds no route, or returns a distance. -/
inductive RouteLookup where
  | raises
  | noRoute
  | route (km : Nat)
  deriving Repr, DecidableEq

/-- Modelled from the spec: rail attempted first, road second, first success
returned, no route-quality comparison. -/
def distanceLookup (rail road : RouteLookup) : Option Nat :=
  match rail with
  | .route d => some d
  | _ =>
    match road with
    | .route d => some d
    | _ => none

/-! Concrete records used by witnesses. -/

/-- A trip record with every key absent. -/
def tripNone : Trip := ⟨none, none, none, none, none, none, none, none, none, none⟩

/-- A map-screenshot extraction carrying a 142 km distance. -/
def mapDoc142 : RawDoc := ⟨some "map_data", none, none, none, .other, some "142"⟩

/-- A salary-slip extraction with the given basic pay. -/
def salaryDoc (p : String) : RawDoc := ⟨some "salary", some p, none, none, .absent, none⟩

/-- A tour approval carrying user details and a system number. -/
def tourDocNamed : RawDoc :=
  ⟨some "tour_approval", none, some ⟨some "A B", some "Prof", some "1/2"⟩,
   some "123", .absent, none⟩

/-- A trip departing 05/03/2021. -/
def tripMar : Trip := { tripNone with departure_date := some "05/03/2021" }

/-- A trip departing 01/02/2021. -/
def tripFeb : Trip := { tripNone with departure_date := some "01/02/2021" }

/-- A trip whose departure date does not parse. -/
def tripBadDate : Trip := { tripNone with departure_date := some "xx" }

/-- A tour approval carrying one trip. -/
def tourDocTrip : RawDoc := ⟨some "tour_approval", none, none, some "999", .list [tripFeb], none⟩

/-! Small facts about the date parser and the fold-computed minimum and
maximum, used by the sorting and month-line claims. -/

theorem parseDateDMY_bounds {s : String} {y m d : Nat}
    (h : parseDateDMY s = some (y, m, d)) :
    1 ≤ y ∧ 1 ≤ m ∧ m ≤ 12 ∧ 1 ≤ d ∧ d ≤ 31 := by
  unfold parseDateDMY at h
  repeat split at h
  all_goals try exact Option.noConfusion h
  simp only [Option.some.injEq, Prod.mk.injEq] at h
  obtain ⟨rfl, rfl, rfl⟩ := h
  omega

theorem foldl_min_mem : ∀ (l : List Nat) (e : Nat), l.foldl Nat.min e ∈ e :: l := by
  intro l
  induction l with
  | nil => intro e; simp
  | cons a l ih =>
    intro e
    have h := ih (Nat.min e a)
    simp only [List.foldl_cons]
    rcases List.mem_cons.mp h with h1 | h1
    · have h2 : Nat.min e a = e ∨ Nat.min e a = a := by
        rcases Nat.le_total e a with h3 | h3
        · exact Or.inl (Nat.min_eq_left h3)
        · exact Or.inr (Nat.min_eq_right h3)
      rw [h1]
      rcases h2 with h3 | h3 <;> rw [h3]
      · exact List.mem_cons_self _ _
      · exact List.mem_cons_of_mem _ (List.mem_cons_self _ _)
    · exact List.mem_cons_of_mem _ (List.mem_cons_of_mem _ h1)

theorem foldl_min_le : ∀ (l : List Nat) (e x : Nat), x ∈ e :: l → l.foldl Nat.min e ≤ x := by
  intro l
  induction l with
  | nil =>
    intro e x hx
    simp only [List.foldl_nil]
    rw [List.mem_singleton] at hx
    rw [hx]
  | cons a l ih =>
    intro e x hx
    simp only [List.foldl_cons]
    have hm := ih (Nat.min e a) (Nat.min e a) (List.mem_cons_self _ _)
    rcases List.mem_cons.mp hx with h1 | h1
    · rw [h1]
      exact Nat.le_trans hm (Nat.min_le_left e a)
    · rcases List.mem_cons.mp h1 with h2 | h2
      · rw [h2]
        exact Nat.le_trans hm (Nat.min_le_right e a)
      · exact ih _ _ (List.mem_cons_of_mem _ h2)

theorem foldl_max_mem : ∀ (l : List Nat) (e : Nat), l.foldl Nat.max e ∈ e :: l := by
  intro l
  induction l with
  | nil => intro e; simp
  | cons a l ih =>
    intro e
    have h := ih (Nat.max e a)
    simp only [List.foldl_cons]
    rcases List.mem_cons.mp h with h1 | h1
    · have h2 : Nat.max e a = e ∨ Nat.max e a = a := by
        rcases Nat.le_total e a with h3 | h3
        · exact Or.inr (Nat.max_eq_right h3)
        · exact Or.inl (Nat.max_eq_left h3)
      rw [h1]
      rcases h2 with h3 | h3 <;> rw [h3]
      · exact List.mem_cons_self _ _
      · exact List.mem_cons_of_mem _ (List.mem_cons_self _ _)
    · exact List.mem_cons_of_mem _ (List.mem_cons_of_mem _ h1)

theorem le_foldl_max : ∀ (l : List Nat) (e x : Nat), x ∈ e :: l → x ≤ l.foldl Nat.max e := by
  intro l
  induction l with
  | nil =>
    intro e x hx
    simp only [List.foldl_nil]
    rw [List.mem_singleton] at hx
    rw [hx]
  | cons a l ih =>
    intro e x hx
    simp only [List.foldl_cons]
    have hm := ih (Nat.max e a) (Nat.max e a) (List.mem_cons_self _ _)
    rcases List.mem_cons.mp hx with h1 | h1
    · rw [h1]
      exact Nat.le_trans (Nat.le_max_left e a) hm
    · rcases List.mem_cons.mp h1 with h2 | h2
      · rw [h2]
        exact Nat.le_trans (Nat.le_max_right e a) hm
      · exact ih _ _ (List.mem_cons_of_mem _ h2)

/-! ## Claims -/

/-- C1: for every trip record whose distance field is missing, empty, or zero
(string `0`, ``, or `None` after stripping), if at least one map_data record
was extracted, the merge step sets that trip's `distance_km` to the
`distance_km` of the first map_data record (with the code's `'0'` fallback
when that record lacks the key); no trip's distance field is left unset after
the merge when an auxiliary distance record exists. -/
theorem C1_blank_distance_backfilled (m : RawDoc) (ms : List RawDoc)
    (ts : List Trip) (i : Nat) (t : Trip)
    (hi : ts[i]? = some t) (hb : blankDist t = true) :
    (mergeTrips (m :: ms) ts)[i]? =
      some { t with distance_km := some (m.distance_km.getD "0") } ∧
    ∀ t2 ∈ mergeTrips (m :: ms) ts, t2.distance_km ≠ none := by
  constructor
  · simp [mergeTrips, List.getElem?_map, hi, mergeOne, hb]
  · intro t2 ht2
    simp only [mergeTrips, List.mem_map] at ht2
    obtain ⟨t0, -, rfl⟩ := ht2
    by_cases h : blankDist t0 = true
    · simp [mergeOne, h]
    · cases hd : t0.distance_km with
      | none =>
        exfalso
        apply h
        simp only [blankDist, hd, Option.getD_none]
        decide
      | some s => simp [mergeOne, h, hd]

theorem C1_blank_distance_backfilled_witness :
    (mergeTrips [mapDoc142] [tripNone])[0]? =
      some { tripNone with distance_km := some "142" } ∧
    ∀ t2 ∈ mergeTrips [mapDoc142] [tripNone], t2.distance_km ≠ none :=
  C1_blank_distance_backfilled mapDoc142 [] [tripNone] 0 tripNone rfl (by decide)

/-- C3: every failure cause of the extraction (service error, malformed JSON,
missing key) makes `extract_doc_data` return the failure signal `none` after
logging (lines 99-101), treated identically; and the main loop skips a file
whose extraction returned `none` and continues with the remaining files
(`if data:` at line 294). -/
theorem C3_failure_skips_file :
    (∀ o : ServiceOutcome, o.isFailure = true → extract_doc_data o = none) ∧
    (∀ (rest : List (Option RawDoc)) (st : AppState),
      processFiles (none :: rest) st = processFiles rest st) := by
  constructor
  · intro o h
    cases o with
    | ok d => simp [ServiceOutcome.isFailure] at h
    | _ => rfl
  · intro rest st
    rfl

theorem C3_failure_skips_file_witness :
    ServiceOutcome.networkError.isFailure = true ∧
    extract_doc_data .networkError = none ∧
    processFiles [none] initState = processFiles [] initState :=
  ⟨rfl, C3_failure_skips_file.1 .networkError rfl, C3_failure_skips_file.2 [] initState⟩

/-- C4 counterexample: the claim assigns the renderer a default of `Unknown`
for a missing `system_no`, but the renderer (line 217) uses
`trip.get('system_no', '')`: a trip lacking `system_no` renders with the
empty string, not `Unknown`. -/
theorem C4_renderer_sysno_counterexample :
    tripNone.system_no = none ∧
    sysNoStr tripNone = "" ∧
    sysNoStr tripNone ≠ "Unknown" ∧
    purposeText tripNone =
      "Tour is final Approved by the Principal, NMCA, NAU.\n\nin Online Tour management System No.\n" := by
  refine ⟨rfl, rfl, ?_, rfl⟩
  decide

/-- C4 amended: the renderer substitutes hardcoded defaults for absent fields
and never rejects a record: name defaults to `Vaibhav Kumar Kanubhai
Chaudhari`, designation to `Associate Professor`, budget head to `303/2092`,
basic pay to `N/A`, departure place to `NAU, Navsari`, mode of journey to
`Private Vehicle`; a missing `system_no` defaults to the empty string in the
renderer, while the `Unknown` default for `system_no` is applied earlier, at
ingestion (line 311), so trips reaching the renderer always carry one.  The
renderer is a total function: it never fails on a record with missing
fields. -/
theorem C4_renderer_defaults_amended :
    (∀ u : UserInfo, u.name = none → nameStr u = "Vaibhav Kumar Kanubhai Chaudhari") ∧
    (∀ u : UserInfo, u.designation = none → designationStr u = "Associate Professor") ∧
    (∀ u : UserInfo, u.budget_head = none → budgetHeadStr u = "303/2092") ∧
    (∀ u : UserInfo, u.basic_pay = none → basicSalaryStr u = "N/A") ∧
    (∀ t : Trip, t.departure_place = none → (renderRow t)[0]? = some "NAU, Navsari") ∧
    (∀ t : Trip, t.mode_of_journey = none → (renderRow t)[6]? = some "Private Vehicle") ∧
    (∀ t : Trip, t.system_no = none → sysNoStr t = "") ∧
    (∀ (d : RawDoc) (t : Trip), d.system_no = none →
      (tagTrip d t).system_no = some "Unknown") := by
  refine ⟨fun u h => ?_, fun u h => ?_, fun u h => ?_, fun u h => ?_,
          fun t h => ?_, fun t h => ?_, fun t h => ?_, fun d t h => ?_⟩
  · simp [nameStr, h]
  · simp [designationStr, h]
  · simp [budgetHeadStr, h]
  · simp [basicSalaryStr, h]
  · simp [renderRow, h]
  · simp [renderRow, h]
  · simp [sysNoStr, h]
  · simp [tagTrip, h]

theorem C4_renderer_defaults_amended_witness :
    nameStr initState.user_info = "Vaibhav Kumar Kanubhai Chaudhari" ∧
    designationStr initState.user_info = "Associate Professor" ∧
    budgetHeadStr initState.user_info = "303/2092" ∧
    basicSalaryStr initState.user_info = "N/A" ∧
    (renderRow tripNone)[0]? = some "NAU, Navsari" ∧
    (renderRow tripNone)[6]? = some "Private Vehicle" ∧
    sysNoStr tripNone = "" ∧
    (tagTrip mapDoc142 tripNone).system_no = some "Unknown" :=
  ⟨C4_renderer_defaults_amended.1 initState.user_info rfl,
   C4_renderer_defaults_amended.2.1 initState.user_info rfl,
   C4_renderer_defaults_amended.2.2.1 initState.user_info rfl,
   C4_renderer_defaults_amended.2.2.2.1 initState.user_info rfl,
   C4_renderer_defaults_amended.2.2.2.2.1 tripNone rfl,
   C4_renderer_defaults_amended.2.2.2.2.2.1 tripNone rfl,
   C4_renderer_defaults_amended.2.2.2.2.2.2.1 tripNone rfl,
   C4_renderer_defaults_amended.2.2.2.2.2.2.2 mapDoc142 tripNone rfl⟩

/-- C5 counterexample: the claim says employee fields, once first set, are
never changed by a subsequent file; but a second salary slip overwrites
`basic_pay` (line 297 assigns unconditionally). -/
theorem C5_employee_mutation_counterexample :
    (processFiles [some (salaryDoc "50000")] initState).user_info.basic_pay
      = some (some "50000") ∧
    (processFiles [some (salaryDoc "50000"), some (salaryDoc "60000")]
      initState).user_info.basic_pay = some (some "60000") := by
  decide

/-- A truthy `name` in `user_details` always lands in `user_info`, whatever
the other two conditional writes do. -/
theorem applyUserDetails_name (info : UserInfo) (u : UserDetails)
    (h : truthy u.name = true) : (applyUserDetails info u).name = u.name := by
  unfold applyUserDetails
  rw [if_pos h]
  by_cases h2 : truthy u.designation = true <;>
    by_cases h3 : truthy u.budget_head = true <;> simp [h2, h3]

/-- A truthy `designation` in `user_details` always lands in `user_info`,
whatever the other two conditional writes do. -/
theorem applyUserDetails_designation (info : UserInfo) (u : UserDetails)
    (h : truthy u.designation = true) :
    (applyUserDetails info u).designation = u.designation := by
  by_cases h1 : truthy u.name = true <;>
    by_cases h3 : truthy u.budget_head = true <;>
      simp [applyUserDetails, h1, h3, h]

/-- A truthy `budget_head` in `user_details` always lands in `user_info`,
whatever the other two conditional writes do. -/
theorem applyUserDetails_budget_head (info : UserInfo) (u : UserDetails)
    (h : truthy u.budget_head = true) :
    (applyUserDetails info u).budget_head = u.budget_head := by
  by_cases h1 : truthy u.name = true <;>
    by_cases h2 : truthy u.designation = true <;>
      simp [applyUserDetails, h1, h2, h]

/-- C5 amended: the employee record is accumulated across files with
last-writer-wins semantics, not write-once: every processed salary slip
overwrites `basic_pay` with its own value (line 297), and every tour approval
whose `user_details` carries a truthy `name`, `designation` or `budget_head`
overwrites that field (lines 301-305), regardless of whether the fields were
already set.  The record is only read afterwards, by the renderer, for header
fields. -/
theorem C5_employee_last_writer_wins :
    (∀ (st : AppState) (d : RawDoc), d.dtype = some "salary" →
      (processFile st (some d)).user_info.basic_pay = some d.basic_pay) ∧
    (∀ (st : AppState) (d : RawDoc) (u : UserDetails),
      d.dtype = some "tour_approval" → d.user_details = some u →
      truthy u.name = true →
      (processFile st (some d)).user_info.name = u.name) ∧
    (∀ (st : AppState) (d : RawDoc) (u : UserDetails),
      d.dtype = some "tour_approval" → d.user_details = some u →
      truthy u.designation = true →
      (processFile st (some d)).user_info.designation = u.designation) ∧
    (∀ (st : AppState) (d : RawDoc) (u : UserDetails),
      d.dtype = some "tour_approval" → d.user_details = some u →
      truthy u.budget_head = true →
      (processFile st (some d)).user_info.budget_head = u.budget_head) := by
  refine ⟨?_, ?_, ?_, ?_⟩
  · intro st d h
    simp [processFile, h]
  · intro st d u h hu hn
    have hne : ¬ d.dtype = some "salary" := by rw [h]; decide
    simp only [processFile, hu, if_neg hne, if_pos h]
    exact applyUserDetails_name st.user_info u hn
  · intro st d u h hu hn
    have hne : ¬ d.dtype = some "salary" := by rw [h]; decide
    simp only [processFile, hu, if_neg hne, if_pos h]
    exact applyUserDetails_designation st.user_info u hn
  · intro st d u h hu hn
    have hne : ¬ d.dtype = some "salary" := by rw [h]; decide
    simp only [processFile, hu, if_neg hne, if_pos h]
    exact applyUserDetails_budget_head st.user_info u hn

theorem C5_employee_last_writer_wins_witness :
    (processFile initState (some (salaryDoc "50000"))).user_info.basic_pay
      = some (some "50000") ∧
    (processFile initState (some tourDocNamed)).user_info.name = some "A B" ∧
    (processFile initState (some tourDocNamed)).user_info.designation = some "Prof" ∧
    (processFile initState (some tourDocNamed)).user_info.budget_head = some "1/2" :=
  ⟨C5_employee_last_writer_wins.1 initState (salaryDoc "50000") rfl,
   C5_employee_last_writer_wins.2.1 initState tourDocNamed
     ⟨some "A B", some "Prof", some "1/2"⟩ rfl rfl (by decide),
   C5_employee_last_writer_wins.2.2.1 initState tourDocNamed
     ⟨some "A B", some "Prof", some "1/2"⟩ rfl rfl (by decide),
   C5_employee_last_writer_wins.2.2.2 initState tourDocNamed
     ⟨some "A B", some "Prof", some "1/2"⟩ rfl rfl (by decide)⟩

/-- C6: the merge step changes at most the `distance_km` field of each trip,
and changes nothing at all for a trip whose distance is already present and
non-zero (the blank test at lines 326-327 fails): every other field is
unchanged for every trip, and the merge is one single pass applying one
conditional update per trip. -/
theorem C6_merge_frame :
    (∀ (maps : List RawDoc) (ts : List Trip) (i : Nat) (t : Trip),
      ts[i]? = some t → blankDist t = false → (mergeTrips maps ts)[i]? = some t) ∧
    (∀ (maps : List RawDoc) (t : Trip),
      (mergeOne maps t).departure_place = t.departure_place ∧
      (mergeOne maps t).departure_date = t.departure_date ∧
      (mergeOne maps t).departure_time = t.departure_time ∧
      (mergeOne maps t).arrival_place = t.arrival_place ∧
      (mergeOne maps t).arrival_date = t.arrival_date ∧
      (mergeOne maps t).arrival_time = t.arrival_time ∧
      (mergeOne maps t).mode_of_journey = t.mode_of_journey ∧
      (mergeOne maps t).purpose = t.purpose ∧
      (mergeOne maps t).system_no = t.system_no) ∧
    (∀ (maps : List RawDoc) (ts : List Trip), mergeTrips maps ts = ts.map (mergeOne maps)) := by
  refine ⟨?_, ?_, fun maps ts => rfl⟩
  · intro maps ts i t hi hb
    cases maps with
    | nil => simpa [mergeTrips, List.getElem?_map, mergeOne] using hi
    | cons m ms => simp [mergeTrips, List.getElem?_map, hi, mergeOne, hb]
  · intro maps t
    cases maps with
    | nil => exact ⟨rfl, rfl, rfl, rfl, rfl, rfl, rfl, rfl, rfl⟩
    | cons m ms =>
      by_cases h : blankDist t = true <;>
        simp [mergeOne, h]

theorem C6_merge_frame_witness :
    (mergeTrips [mapDoc142] [{ tripNone with distance_km := some "55" }])[0]? =
      some { tripNone with distance_km := some "55" } ∧
    (mergeOne [mapDoc142] tripNone).departure_date = tripNone.departure_date ∧
    (mergeOne [mapDoc142] tripNone).purpose = tripNone.purpose :=
  ⟨C6_merge_frame.1 [mapDoc142] [{ tripNone with distance_km := some "55" }] 0
     { tripNone with distance_km := some "55" } rfl (by decide),
   (C6_merge_frame.2.1 [mapDoc142] tripNone).2.1,
   (C6_merge_frame.2.1 [mapDoc142] tripNone).2.2.2.2.2.2.2.1⟩

/-- C7: for every call to the extraction operation, the temporary file holding
the uploaded bytes exists during the external model call (it is created at
lines 54-56, before the `try` block), and on the success path and on every
failure path the `finally` at lines 102-103 deletes it: no temporary file
remains after `extract_doc_data` returns, and the returned value is the
ordinary extraction result. -/
theorem C7_tempfile_lifecycle (o : ServiceOutcome) (p : String) (fs : List String) :
    (extract_doc_data_fs o p fs).2 = fs ∧
    p ∈ fsDuringCall p fs ∧
    (extract_doc_data_fs o p fs).1 = extract_doc_data o := by
  refine ⟨?_, List.mem_cons_self p fs, rfl⟩
  simp [extract_doc_data_fs, fsDuringCall]

/-- C8 (spec-modelled): the distance lookup queries rail first and road
second, returning whichever succeeds first: whenever the rail lookup yields a
route its distance is returned no matter what the road lookup would do, and
the road result is returned exactly when the rail lookup raises or finds no
route. -/
theorem C8_rail_preferred :
    (∀ (d : Nat) (road : RouteLookup), distanceLookup (.route d) road = some d) ∧
    (∀ d : Nat, distanceLookup .raises (.route d) = some d ∧
                distanceLookup .noRoute (.route d) = some d) ∧
    distanceLookup .raises .raises = none ∧
    distanceLookup .raises .noRoute = none ∧
    distanceLookup .noRoute .raises = none ∧
    distanceLookup .noRoute .noRoute = none :=
  ⟨fun d road => rfl, fun d => ⟨rfl, rfl⟩, rfl, rfl, rfl, rfl⟩

/-- C2: when every truthy departure date parses as DD/MM/YYYY, the sort of the
accumulated trip list is an ascending stable reordering by the parsed
departure date, with trips lacking a departure date keyed as `datetime.min`
(01/01/0001, the least possible key); when any departure date fails to parse,
the `except: pass` swallows the error and the list keeps exactly its original
order (CPython computes all sort keys before reordering). -/
theorem C2_sort_stable_or_unchanged (ts : List Trip) :
    (ts.all keyOk = true →
      (sortTours ts).Pairwise (fun a b => sortKey a ≤ sortKey b) ∧
      List.Perm (sortTours ts) ts ∧
      (∀ a b : Trip, List.Sublist [a, b] ts → sortKey a ≤ sortKey b →
        List.Sublist [a, b] (sortTours ts))) ∧
    (ts.all keyOk = false → sortTours ts = ts) ∧
    (∀ t : Trip, truthyDate t = none → sortKey t = dateEnc (1, 1, 1)) ∧
    (∀ t : Trip, keyOk t = true → dateEnc (1, 1, 1) ≤ sortKey t) := by
  have htrans : ∀ a b c : Trip, trip_le a b → trip_le b c → trip_le a c := by
    intro a b c hab hbc
    simp only [trip_le, decide_eq_true_eq] at hab hbc ⊢
    omega
  have htotal : ∀ a b : Trip, trip_le a b || trip_le b a := by
    intro a b
    simp only [trip_le]
    by_cases hle : sortKey a ≤ sortKey b
    · simp [hle]
    · simp only [Bool.or_eq_true, decide_eq_true_eq]
      omega
  refine ⟨?_, ?_, ?_, ?_⟩
  · intro hall
    have hs : sortTours ts = ts.mergeSort trip_le := by
      simp [sortTours, hall]
    refine ⟨?_, ?_, ?_⟩
    · rw [hs]
      exact (List.sorted_mergeSort htrans htotal ts).imp
        (by intro a b hab; simpa [trip_le, decide_eq_true_eq] using hab)
    · rw [hs]
      exact List.mergeSort_perm ts trip_le
    · intro a b hsub hle
      rw [hs]
      exact List.pair_sublist_mergeSort htrans htotal
        (by simpa [trip_le, decide_eq_true_eq] using hle) hsub
  · intro hfal
    simp [sortTours, hfal]
  · intro t ht
    simp [sortKey, ht]
  · intro t ht
    cases htd : truthyDate t with
    | none => simp [sortKey, htd]
    | some s =>
      simp only [keyOk, htd] at ht
      cases hp : parseDateDMY s with
      | none => simp [hp] at ht
      | some ymd =>
        obtain ⟨y, m, d⟩ := ymd
        obtain ⟨h1, h2, h3, h4, h5⟩ := parseDateDMY_bounds hp
        simp only [sortKey, htd, hp, dateEnc]
        omega

theorem C2_sort_stable_or_unchanged_witness :
    [tripMar, tripFeb].all keyOk = true ∧
    List.Perm (sortTours [tripMar, tripFeb]) [tripMar, tripFeb] ∧
    (sortTours [tripMar, tripFeb]).Pairwise (fun a b => sortKey a ≤ sortKey b) ∧
    sortTours [tripMar, tripBadDate] = [tripMar, tripBadDate] ∧
    sortKey tripNone = dateEnc (1, 1, 1) ∧
    dateEnc (1, 1, 1) ≤ sortKey tripMar :=
  ⟨by decide,
   ((C2_sort_stable_or_unchanged [tripMar, tripFeb]).1 (by decide)).2.1,
   ((C2_sort_stable_or_unchanged [tripMar, tripFeb]).1 (by decide)).1,
   (C2_sort_stable_or_unchanged [tripMar, tripBadDate]).2.1 (by decide),
   (C2_sort_stable_or_unchanged []).2.2.1 tripNone (by decide),
   (C2_sort_stable_or_unchanged []).2.2.2 tripMar (by decide)⟩

/-- C9: the rendered header ends with the month line (lines 126-148): the
empty string when no trip has a truthy departure date or when any such date
fails to parse (the exception is swallowed with `month_str` still empty and
rendering proceeds); otherwise `Month: <B-Y>` of the minimum date when the
minimum and maximum parsed dates share calendar month and year, and
`Month: <min B-Y> to <max B-Y>` otherwise.  `generate_word_doc` is total, so
rendering succeeds in every case. -/
theorem C9_month_line :
    (∀ ts : List Trip, ts.filterMap truthyDate = [] → monthStr ts = "") ∧
    (∀ (ts : List Trip) (s : String), s ∈ ts.filterMap truthyDate →
      parseDateDMY s = none → monthStr ts = "") ∧
    (∀ (ts : List Trip) (emin emax : Nat),
      emin ∈ encDates ts → emax ∈ encDates ts →
      (∀ e ∈ encDates ts, emin ≤ e ∧ e ≤ emax) →
      (∀ s ∈ ts.filterMap truthyDate, (parseDateDMY s).isSome = true) →
      ts.filterMap truthyDate ≠ [] →
      monthStr ts = (if emin / 100 = emax / 100
        then "Month: " ++ fmtEnc emin
        else "Month: " ++ fmtEnc emin ++ " to " ++ fmtEnc emax)) ∧
    (∀ (ts : List Trip) (u : UserInfo),
      (generate_word_doc ts u).header =
        "Designation: " ++ designationStr u ++ "\n" ++
        "Name: " ++ nameStr u ++ "\n" ++
        "Basic salary: " ++ basicSalaryStr u ++ "\n" ++
        "B.H: " ++ budgetHeadStr u ++ "\n" ++
        "Dept. of Entomology, N. M. Collage of Agriculture, NAU, Navsari - 396 450\n" ++
        monthStr ts) := by
  refine ⟨?_, ?_, ?_, fun ts u => rfl⟩
  · intro ts h
    simp [monthStr, h]
  · intro ts s hs hn
    unfold monthStr
    by_cases he : (ts.filterMap truthyDate).isEmpty
    · simp [he]
    · have hall : (ts.filterMap truthyDate).all (fun s => (parseDateDMY s).isSome) = false := by
        rw [List.all_eq_false]
        exact ⟨s, hs, by simp [hn]⟩
      simp [he, hall]
  · intro ts emin emax hmin hmax hbound hall hne
    unfold monthStr
    have he : (ts.filterMap truthyDate).isEmpty = false := by
      rw [List.isEmpty_eq_false]
      exact hne
    have hallb : (ts.filterMap truthyDate).all (fun s => (parseDateDMY s).isSome) = true := by
      rw [List.all_eq_true]
      exact hall
    rw [if_neg (by simp [he]), if_pos hallb]
    obtain ⟨e, es, hE⟩ := List.exists_cons_of_ne_nil
      (show encDates ts ≠ [] from fun h0 => by rw [h0] at hmin; exact absurd hmin (List.not_mem_nil emin))
    rw [hE] at hmin hmax hbound ⊢
    have h1 : es.foldl Nat.min e = emin := by
      apply Nat.le_antisymm
      · exact foldl_min_le es e emin hmin
      · exact (hbound _ (foldl_min_mem es e)).1
    have h2 : es.foldl Nat.max e = emax := by
      apply Nat.le_antisymm
      · exact (hbound _ (foldl_max_mem es e)).2
      · exact le_foldl_max es e emax hmax
    simp only [h1, h2]

theorem C9_month_line_witness :
    monthStr [] = "" ∧
    monthStr [tripBadDate] = "" ∧
    monthStr [tripMar, tripFeb] = "Month: February-2021 to March-2021" ∧
    (generate_word_doc [] initState.user_info).header =
      "Designation: " ++ designationStr initState.user_info ++ "\n" ++
      "Name: " ++ nameStr initState.user_info ++ "\n" ++
      "Basic salary: " ++ basicSalaryStr initState.user_info ++ "\n" ++
      "B.H: " ++ budgetHeadStr initState.user_info ++ "\n" ++
      "Dept. of Entomology, N. M. Collage of Agriculture, NAU, Navsari - 396 450\n" ++
      monthStr [] :=
  ⟨C9_month_line.1 [] rfl,
   C9_month_line.2.1 [tripBadDate] "xx" (by decide) (by decide),
   C9_month_line.2.2.1 [tripMar, tripFeb] 20210201 20210305
     (by decide) (by decide) (by decide) (by decide) (by decide),
   C9_month_line.2.2.2 [] initState.user_info⟩

/-- Files that are not tour approvals never add trip entries. -/
theorem processFile_no_tour (st : AppState) (f : Option RawDoc)
    (h : ∀ dc : RawDoc, f = some dc → dc.dtype ≠ some "tour_approval") :
    (processFile st f).tour_entries = st.tour_entries := by
  cases f with
  | none => rfl
  | some dc =>
    have hne := h dc rfl
    simp only [processFile]
    by_cases h1 : dc.dtype = some "salary"
    · simp [h1]
    · rw [if_neg h1, if_neg hne]
      by_cases h2 : dc.dtype = some "map_data"
      · simp [h2]
      · rw [if_neg h2]

theorem processFiles_no_tour (files : List (Option RawDoc)) :
    ∀ st : AppState,
    (∀ f ∈ files, ∀ dc : RawDoc, f = some dc → dc.dtype ≠ some "tour_approval") →
    (processFiles files st).tour_entries = st.tour_entries := by
  induction files with
  | nil => intro st h; rfl
  | cons f fs ih =>
    intro st h
    rw [show processFiles (f :: fs) st = processFiles fs (processFile st f) from rfl]
    rw [ih _ (fun g hg => h g (List.mem_cons_of_mem f hg))]
    exact processFile_no_tour st f (h f (List.mem_cons_self f fs))

/-- The sort never changes the number of trips. -/
theorem length_sortTours (ts : List Trip) : (sortTours ts).length = ts.length := by
  unfold sortTours
  split
  · simp
  · rfl

/-- C10: a document is generated and offered for download exactly when at
least one trip record was accumulated from the uploaded files (`if
tour_entries:` at line 343); in particular when no successfully extracted file
is a tour approval — so also when every extraction fails, or only salary
slips and map screenshots are uploaded — the run shows the warning and
produces no document. -/
theorem C10_document_iff_trips (files : List (Option RawDoc)) :
    ((∃ doc, runApp files = .document doc) ↔
      (processFiles files initState).tour_entries ≠ []) ∧
    ((∀ f ∈ files, ∀ dc : RawDoc, f = some dc → dc.dtype ≠ some "tour_approval") →
      runApp files = .warning) := by
  have hlen : ∀ st : AppState,
      (sortTours (mergeTrips st.map_entries st.tour_entries)).isEmpty = true ↔
      st.tour_entries = [] := by
    intro st
    rw [List.isEmpty_iff, ← List.length_eq_zero, length_sortTours, mergeTrips,
      List.length_map, List.length_eq_zero]
  constructor
  · unfold runApp
    by_cases h : (processFiles files initState).tour_entries = []
    · rw [if_pos ((hlen _).mpr h)]
      constructor
      · rintro ⟨doc, hd⟩
        exact absurd hd (by simp)
      · intro hne
        exact absurd h hne
    · rw [if_neg (fun hc => h ((hlen _).mp hc))]
      exact ⟨fun _ => h, fun _ => ⟨_, rfl⟩⟩
  · intro h
    have h0 : (processFiles files initState).tour_entries = [] :=
      processFiles_no_tour files initState h
    unfold runApp
    rw [if_pos ((hlen _).mpr h0)]

theorem C10_document_iff_trips_witness :
    (∃ doc, runApp [some tourDocTrip] = .document doc) ∧
    runApp [some mapDoc142, none, some (salaryDoc "50000")] = .warning :=
  ⟨((C10_document_iff_trips [some tourDocTrip]).1).mpr (by decide),
   (C10_document_iff_trips [some mapDoc142, none, some (salaryDoc "50000")]).2
     (by
       intro f hf dc hdc
       fin_cases hf <;> first
         | exact Option.noConfusion hdc
         | (cases hdc; decide))⟩
